import Mathlib

/-!
Shallow embedding of `src/client/src/icons/index.ts` from the Bai repository.

The file is a flat ES-module icon registry: every line is a statement of the
form `export { default as Name } from './Module'`, re-publishing the default
export of an icon definition module under a chosen name.  We embed the module
as the list of its statements, derive the registry of (name, specifier)
bindings from it, and model module resolution: ES modules guarantee one module
instance per resolved specifier, so the default-export reference obtained for
a specifier is determined by that specifier.
-/

namespace IconsIndex

/-- A top-level statement of an ES module, restricted to the statement kinds
relevant to an aggregation module: a named re-export of another module's
default export, a default export of the module itself, or a local binding. -/
inductive ModuleStmt where
  | reExportDefault (name : String) (specifier : String)
  | exportDefaultDecl
  | localBinding (name : String)
  deriving DecidableEq, Repr

/-- `true` iff the statement is `export { default as N } from 'M'`. -/
def ModuleStmt.isNamedReExport : ModuleStmt → Bool
  | .reExportDefault _ _ => true
  | _ => false

set_option maxHeartbeats 1600000

/-- The statements of `src/client/src/icons/index.ts`, in source order. -/
def iconsIndex : List ModuleStmt := [
  .reExportDefault "ArrowDown" "./ArrowDown",
  .reExportDefault "ArrowLeft" "./ArrowLeft",
  .reExportDefault "ArrowPushBottom" "./ArrowPushBottom",
  .reExportDefault "ArrowPushLeft" "./ArrowPushLeft",
  .reExportDefault "ArrowPushRight" "./ArrowPushRight",
  .reExportDefault "ArrowBoxOut" "./ArrowBoxOut",
  .reExportDefault "ArrowPushTop" "./ArrowPushTop",
  .reExportDefault "ArrowRevert" "./ArrowRevert",
  .reExportDefault "ArrowRight" "./ArrowRight",
  .reExportDefault "ArrowUp" "./ArrowUp",
  .reExportDefault "Branch" "./Branch",
  .reExportDefault "Bug" "./Bug",
  .reExportDefault "ChatBubble" "./ChatBubble",
  .reExportDefault "CheckIcon" "./CheckIcon",
  .reExportDefault "ChevronDoubleIntersected" "./ChevronDoubleIntersected",
  .reExportDefault "ChevronDown" "./ChevronDown",
  .reExportDefault "ChevronDownFilled" "./ChevronDownFilled",
  .reExportDefault "ChevronFoldIn" "./ChevronFoldIn",
  .reExportDefault "ChevronFoldOut" "./ChevronFoldOut",
  .reExportDefault "ChevronLeft" "./ChevronLeft",
  .reExportDefault "ChevronLeftFilled" "./ChevronLeftFilled",
  .reExportDefault "ChevronRight" "./ChevronRight",
  .reExportDefault "ChevronRightFilled" "./ChevronRightFilled",
  .reExportDefault "ChevronUp" "./ChevronUp",
  .reExportDefault "ChevronUpFilled" "./ChevronUpFilled",
  .reExportDefault "ClearIcon" "./ClearIcon",
  .reExportDefault "Clipboard" "./Clipboard",
  .reExportDefault "CloseSign" "./CloseSign",
  .reExportDefault "Codebase" "./Codebase",
  .reExportDefault "CodeLanguage" "./CodeLanguage",
  .reExportDefault "Cog" "./Cog",
  .reExportDefault "Collections" "./Collections",
  .reExportDefault "DoorLeft" "./DoorLeft",
  .reExportDefault "DoorRight" "./DoorRight",
  .reExportDefault "DoubleChevronLeft" "./DoubleChevronLeft",
  .reExportDefault "DoubleChevronRight" "./DoubleChevronRight",
  .reExportDefault "DragVertical" "./DragVertical",
  .reExportDefault "Filter" "./Filter",
  .reExportDefault "FloppyDisk" "./FloppyDisk",
  .reExportDefault "FolderFilled" "./FolderFilled",
  .reExportDefault "Letter" "./Letter",
  .reExportDefault "MagnifyTool" "./MagnifyTool",
  .reExportDefault "MailIcon" "./MailIcon",
  .reExportDefault "Modal" "./Modal",
  .reExportDefault "PenUnderline" "./PenUnderline",
  .reExportDefault "Person" "./Person",
  .reExportDefault "Persons" "./Persons",
  .reExportDefault "PlusSignInBubble" "./PlusSignInBubble",
  .reExportDefault "PowerPlug" "./PowerPlug",
  .reExportDefault "Repository" "./Repository",
  .reExportDefault "ReturnKey" "./ReturnKey",
  .reExportDefault "Sidebar" "./Sidebar",
  .reExportDefault "Star" "./Star",
  .reExportDefault "Tab" "./Tab",
  .reExportDefault "Thunder" "./Thunder",
  .reExportDefault "TrashCan" "./TrashCan",
  .reExportDefault "Version" "./Version",
  .reExportDefault "LogoSmall" "./LogoSmall",
  .reExportDefault "LogoFull" "./LogoFull",
  .reExportDefault "GitHubLogo" "./GitHubIcon",
  .reExportDefault "List" "./List",
  .reExportDefault "Eye" "./Eye",
  .reExportDefault "Commit" "./Commit",
  .reExportDefault "Intelisence" "./Intelisence",
  .reExportDefault "Collapsed" "./Collapsed",
  .reExportDefault "Expanded" "./Expanded",
  .reExportDefault "TooltipTailBottom" "./TooltipTailBottom",
  .reExportDefault "TooltipTailLeft" "./TooltipTailLeft",
  .reExportDefault "TooltipTailTop" "./TooltipTailTop",
  .reExportDefault "TooltipTailRight" "./TooltipTailRight",
  .reExportDefault "Papers" "./Papers",
  .reExportDefault "Globe" "./Globe",
  .reExportDefault "Checkmark" "./Checkmark",
  .reExportDefault "TuneControls" "./TuneControls",
  .reExportDefault "Chronometer" "./Chronometer",
  .reExportDefault "MultiShare" "./MultiShare",
  .reExportDefault "CursorSelection" "./CursorSelection",
  .reExportDefault "RegexIcon" "./Regex",
  .reExportDefault "MoreHorizontal" "./MoreHorizontal",
  .reExportDefault "ThumbsUp" "./ThumbsUp",
  .reExportDefault "ThumbsDown" "./ThumbsDown",
  .reExportDefault "NaturalLanguage" "./NaturalLanguage",
  .reExportDefault "ArrowRotate" "./ArrowRotate",
  .reExportDefault "PointClick" "./PointClick",
  .reExportDefault "Magazine" "./Magazine",
  .reExportDefault "QuillIcon" "./Quill",
  .reExportDefault "SendIcon" "./Send",
  .reExportDefault "DiscordLogo" "./DiscordLogo",
  .reExportDefault "Home" "./Home",
  .reExportDefault "Conversation" "./Conversation",
  .reExportDefault "Sparkle" "./Sparkle",
  .reExportDefault "LiteLoader" "./LiteLoader",
  .reExportDefault "Globe2" "./Globe2",
  .reExportDefault "Lock" "./Lock",
  .reExportDefault "LockFilled" "./LockFilled",
  .reExportDefault "HardDrive" "./HardDrive"
]

/-- An export binding of the registry: the exported name together with the
specifier of the icon definition module whose default export it republishes. -/
structure ExportBinding where
  name : String
  specifier : String
  deriving DecidableEq, Repr

/-- The default-export reference of a module.  An ES module system
instantiates each resolved specifier once, so the reference is identified by
the specifier of the defining module. -/
structure Component where
  ofSpecifier : String
  deriving DecidableEq, Repr

/-- Importing a definition module directly yields its default export. -/
def defaultExport (specifier : String) : Component :=
  ⟨specifier⟩

/-- The registry: the (name, specifier) bindings declared by the module's
re-export statements, in source order. -/
def iconRegistry : List ExportBinding :=
  iconsIndex.filterMap fun s =>
    match s with
    | .reExportDefault n m => some ⟨n, m⟩
    | _ => none

/-- Resolving a name against a registry state: find the binding carrying the
name and import the default export of its definition module. -/
def resolveIn (s : List ExportBinding) (n : String) : Option Component :=
  (s.find? fun b => b.name == n).map fun b => defaultExport b.specifier

/-- Resolving a name through the loaded registry. -/
def resolve (n : String) : Option Component :=
  resolveIn iconRegistry n

/-- A resolve call as an operation on the registry state: it returns the
resolved component and the (unchanged) state. -/
def resolveOp (s : List ExportBinding) (n : String) :
    List ExportBinding × Option Component :=
  (s, resolveIn s n)

/-- The registry state after serving a sequence of resolve calls. -/
def runResolves (s : List ExportBinding) (ns : List String) :
    List ExportBinding :=
  ns.foldl (fun st n => (resolveOp st n).1) s

end IconsIndex

namespace IconsIndex

set_option maxRecDepth 10000

/-- The module specifiers all use the `./Name` form; the basename drops the
leading `./`. -/
def moduleBasename (m : String) : String :=
  match m.data with
  | '.' :: '/' :: rest => String.mk rest
  | _ => m

/-- The exported names of the registry carry no duplicate. -/
theorem names_nodup_aux : (iconRegistry.map fun b => b.name).Nodup := by
  decide

/-- Two registry bindings with the same exported name are the same binding. -/
theorem binding_eq_of_name_eq_aux (b₁ b₂ : ExportBinding)
    (h₁ : b₁ ∈ iconRegistry) (h₂ : b₂ ∈ iconRegistry)
    (h : b₁.name = b₂.name) : b₁ = b₂ :=
  List.inj_on_of_nodup_map names_nodup_aux h₁ h₂ h

/-- Serving resolve calls never changes the registry state. -/
theorem runResolves_id_aux (ns : List String) (s : List ExportBinding) :
    runResolves s ns = s := by
  induction ns with
  | nil => rfl
  | cons n ns ih => exact ih

/-- C1: for every export binding of the registry, resolving its name through
the registry yields the same component reference as importing the underlying
definition module directly; in particular for "ArrowDown". -/
theorem resolve_eq_direct_import (b : ExportBinding) (h : b ∈ iconRegistry) :
    resolve b.name = some (defaultExport b.specifier) := by
  revert b
  decide

/-- Witness for C1: the "ArrowDown" binding resolves to the default export of
the "./ArrowDown" definition module. -/
theorem resolve_eq_direct_import_witness :
    resolve "ArrowDown" = some (defaultExport "./ArrowDown") :=
  resolve_eq_direct_import ⟨"ArrowDown", "./ArrowDown"⟩ (by decide)

/-- C2: the set of names exported by the registry has no duplicates. -/
theorem export_names_nodup : (iconRegistry.map fun b => b.name).Nodup :=
  names_nodup_aux

/-- C3: the name-to-definition mapping is one-to-one: the exported names carry
no duplicate, and no two bindings reference the same definition module. -/
theorem registry_one_to_one :
    (iconRegistry.map fun b => b.name).Nodup ∧
    (iconRegistry.map fun b => b.specifier).Nodup := by
  decide

/-- C4: every name in the registry's enumerated export set resolves to a
component reference that is present (non-null). -/
theorem resolve_isSome_of_exported (n : String)
    (h : n ∈ iconRegistry.map fun b => b.name) : (resolve n).isSome = true := by
  revert n
  decide

/-- Witness for C4: "Lock" is an exported name and resolves to a present
component reference. -/
theorem resolve_isSome_of_exported_witness : (resolve "Lock").isSome = true :=
  resolve_isSome_of_exported "Lock" (by decide)

/-- C5: resolution is referentially stable: any two bindings carrying the same
name resolve alike and reference the identical component, so repeated
resolutions of a name return the identical component reference. -/
theorem resolve_referentially_stable (b₁ b₂ : ExportBinding)
    (h₁ : b₁ ∈ iconRegistry) (h₂ : b₂ ∈ iconRegistry)
    (h : b₁.name = b₂.name) :
    resolve b₁.name = resolve b₂.name ∧
      defaultExport b₁.specifier = defaultExport b₂.specifier := by
  have hb : b₁ = b₂ := binding_eq_of_name_eq_aux b₁ b₂ h₁ h₂ h
  subst hb
  exact ⟨rfl, rfl⟩

/-- Witness for C5 at the "ArrowDown" binding. -/
theorem resolve_referentially_stable_witness :
    resolve "ArrowDown" = resolve "ArrowDown" ∧
      defaultExport "./ArrowDown" = defaultExport "./ArrowDown" :=
  resolve_referentially_stable ⟨"ArrowDown", "./ArrowDown"⟩
    ⟨"ArrowDown", "./ArrowDown"⟩ (by decide) (by decide) rfl

/-- C6: the registry exports 96 names and references 96 distinct icon
definition modules: the two counts agree. -/
theorem export_count_matches_definition_count :
    (iconRegistry.map fun b => b.name).length = 96 ∧
    ((iconRegistry.map fun b => b.specifier).dedup.length = 96) := by
  decide

/-- C7: the set of valid names is closed and enumerated: resolution succeeds
exactly on the names of the registry's export set, so no name outside the
enumerated set reaches a component at runtime. -/
theorem resolve_defined_iff_enumerated (n : String) :
    (resolve n).isSome = true ↔ n ∈ iconRegistry.map fun b => b.name := by
  rw [resolve, resolveIn, Option.isSome_map', List.find?_isSome]
  constructor
  · rintro ⟨b, hb, hbn⟩
    exact List.mem_map.mpr ⟨b, hb, beq_iff_eq.mp hbn⟩
  · intro hm
    obtain ⟨b, hb, hbn⟩ := List.mem_map.mp hm
    exact ⟨b, hb, beq_iff_eq.mpr hbn⟩

/-- C8: the registry is immutable: any sequence of resolve calls leaves the
registry state exactly as initialized, and a resolve call served from that
state returns the mapping established at initialization. -/
theorem registry_immutable (ns : List String) :
    runResolves iconRegistry ns = iconRegistry ∧
      ∀ n, (resolveOp iconRegistry n).2 = resolve n :=
  ⟨runResolves_id_aux ns iconRegistry, fun _ => rfl⟩

/-- C9: exactly four exported names differ from the basename of their
definition module — GitHubLogo from `./GitHubIcon`, RegexIcon from `./Regex`,
QuillIcon from `./Quill`, SendIcon from `./Send` — and the other 92 names
equal their module's basename. -/
theorem renamed_exports_exactly_four :
    (iconRegistry.filter fun b => !(b.name == moduleBasename b.specifier)) =
      [⟨"GitHubLogo", "./GitHubIcon"⟩, ⟨"RegexIcon", "./Regex"⟩,
       ⟨"QuillIcon", "./Quill"⟩, ⟨"SendIcon", "./Send"⟩] ∧
    (iconRegistry.filter fun b => b.name == moduleBasename b.specifier).length
      = 92 := by
  decide

/-- C10: the module's surface is exactly 96 named re-exports of collaborators'
default exports: every statement of the module is a named default re-export,
so it declares no value of its own and no default export. -/
theorem surface_is_96_named_reexports :
    iconsIndex.length = 96 ∧
    iconsIndex.all ModuleStmt.isNamedReExport = true ∧
    iconRegistry.length = 96 := by
  decide

end IconsIndex
